import Mathlib

/-!
# Verification of the Hybrid Retrieval Engine
# (modulo-consultas-parlamentarias, retriever/retriever.py)

Shallow embedding of the `Retriever` class and the slice of the vector
database (qdrant) state it manipulates.  Python dicts are modelled as
association lists, floats as rationals, UUIDs as a fresh-counter supply,
and the network boundary is made explicit by recording the store calls an
operation issues.
-/

namespace Cparla

/-- Association-list lookup with decidable key equality (model of a Python
dict lookup such as the qdrant collection map or `search_type_map`). -/
def lookupAssoc {α β : Type} [DecidableEq α] (k : α) : List (α × β) → Option β
  | [] => none
  | (a, b) :: rest => if a = k then some b else lookupAssoc k rest

/-- Metadata mapping attached to chunks and documents, modelled as an
association list from string keys to string values. -/
abbrev Metadata := List (String × String)

/-- `TextChunk` pydantic model: raw text plus metadata. -/
structure TextChunk where
  text : String
  metadata : Metadata
deriving DecidableEq, Repr

/-- Dense embedding vector; floats are modelled as rationals. -/
abbrev DenseVector := List Rat

/-- Sparse term-weight vector: term index to weight. -/
abbrev SparseVector := List (Nat × Rat)

/-- `qdrant_client.http.models.Distance` (only COSINE is used by the code). -/
inductive Distance
  | cosine
  | euclid
  | dot
deriving DecidableEq, Repr

/-- `qdrant_client.http.models.VectorParams`: dense field configuration. -/
structure VectorParams where
  size : Nat
  distance : Distance
deriving DecidableEq, Repr

/-- `qdrant_client.models.SparseIndexParams`: only the `on_disk` flag is set
by the code. -/
structure SparseIndexParams where
  onDisk : Bool
deriving DecidableEq, Repr

/-- `qdrant_client.http.models.SparseVectorParams`. -/
structure SparseVectorParams where
  index : SparseIndexParams
deriving DecidableEq, Repr

/-- The schema a collection is created with: named dense vector fields and
named sparse vector fields. -/
structure CollectionSchema where
  vectorsConfig : List (String × VectorParams)
  sparseVectorsConfig : List (String × SparseVectorParams)
deriving DecidableEq, Repr

/-- A document as stored in a collection: id (UUID modelled as a natural
drawn from a fresh supply), text, metadata and both vector representations. -/
structure StoredDocument where
  id : Nat
  text : String
  metadata : Metadata
  dense : DenseVector
  sparse : SparseVector
deriving DecidableEq, Repr

/-- A collection held by the vector database: its creation schema and its
documents. -/
structure Collection where
  schema : CollectionSchema
  docs : List StoredDocument
deriving DecidableEq, Repr

/-- Document count of a collection. -/
def Collection.docCount (c : Collection) : Nat := c.docs.length

/-- The vector database state: named collections. -/
abbrev QdrantState := List (String × Collection)

/-- `QdrantClient.collection_exists`. -/
def collectionExists (st : QdrantState) (name : String) : Bool :=
  (lookupAssoc name st).isSome

/-- Document count of a named collection (0 when the collection is absent). -/
def docCountOf (st : QdrantState) (name : String) : Nat :=
  match lookupAssoc name st with
  | none => 0
  | some c => c.docCount

/-- Structured model of the log lines the retriever emits. -/
inductive LogEvent
  | warnAlreadyExists (name : String)
  | warnNotExists (name : String)
deriving DecidableEq, Repr

/-- The schema `Retriever.create_collection` passes to
`QdrantClient.create_collection`: one dense field of the adapter dimension
with COSINE distance, and one sparse field whose index has `on_disk=False`. -/
def createCollectionSchema (denseEmbedDimensions : Nat) : CollectionSchema :=
  { vectorsConfig :=
      [("dense", { size := denseEmbedDimensions, distance := Distance.cosine })],
    sparseVectorsConfig :=
      [("sparse", { index := { onDisk := false } })] }

/-- `Retriever.create_collection`: if the collection exists, log a warning
and return with the store untouched; otherwise create it with the dual
dense/sparse schema.  The call is total (it raises in neither branch). -/
def createCollection (denseEmbedDimensions : Nat) (st : QdrantState)
    (name : String) : QdrantState × List LogEvent :=
  if collectionExists st name then
    (st, [LogEvent.warnAlreadyExists name])
  else
    (st ++ [(name, { schema := createCollectionSchema denseEmbedDimensions,
                     docs := [] })],
     [])

/-- The dense embedding adapter handed to the constructor: it may or may not
expose a model identifier and a dimension, and it maps text to a dense
vector (the provider is a black box behind this function). -/
structure DenseEmbeddings where
  model : Option String
  dimensions : Option Nat
  embed : String → DenseVector

/-- The embeddings object `_get_dense_embeddings` returns: either the raw
adapter unchanged, or a `CacheBackedEmbeddings` wrapping it with a document
cache at `docCachePath` and a query cache that is either shared with the
document store (`query_embedding_cache=True`) or a separate local store. -/
inductive EmbeddingsKind
  | raw (underlying : DenseEmbeddings)
  | cacheBacked (underlying : DenseEmbeddings) (docCachePath : String)
      (queryCachePath : Option String)

/-- `Retriever._get_dense_embeddings`: when the document cache path is
`None` the raw adapter is returned unchanged (the query cache path is never
consulted); otherwise a cache-backed wrapper is built over a local file
store at the document path, with the query cache sharing the document store
when no query path is configured. -/
def getDenseEmbeddings (denseEmbeddings : DenseEmbeddings)
    (docCachePath queryCachePath : Option String) : EmbeddingsKind :=
  match docCachePath with
  | none => EmbeddingsKind.raw denseEmbeddings
  | some dp => EmbeddingsKind.cacheBacked denseEmbeddings dp queryCachePath

/-- The text-to-vector function of the embeddings object (cache-backed or
not, the computed vectors are those of the underlying adapter). -/
def EmbeddingsKind.embedFn : EmbeddingsKind → String → DenseVector
  | EmbeddingsKind.raw u => u.embed
  | EmbeddingsKind.cacheBacked u _ _ => u.embed

/-- The two assertion failures `Retriever.__init__` can raise. -/
inductive ConfigError
  | missingDimensions
  | missingModel
deriving DecidableEq, Repr

/-- The retriever configuration produced by a successful `__init__`:
the recorded dense dimension and model, and the (possibly cache-backed)
dense embeddings. -/
structure RetrieverCfg where
  denseEmbedDimensions : Nat
  model : String
  denseEmbeddings : EmbeddingsKind

/-- `Retriever.__init__`: asserts that the adapter exposes `dimensions` and
`model` (in that order), records the dimension, and wires the dense
embeddings through `_get_dense_embeddings`. -/
def retrieverInit (denseEmbeddings : DenseEmbeddings)
    (docCachePath queryCachePath : Option String) :
    Except ConfigError RetrieverCfg :=
  match denseEmbeddings.dimensions with
  | none => Except.error ConfigError.missingDimensions
  | some d =>
    match denseEmbeddings.model with
    | none => Except.error ConfigError.missingModel
    | some m =>
      Except.ok
        { denseEmbedDimensions := d,
          model := m,
          denseEmbeddings :=
            getDenseEmbeddings denseEmbeddings docCachePath queryCachePath }

/-- Upsert a batch of documents into a named collection (the vector
database's document-upsert interface; on an existing collection it appends
the batch to the collection's documents). -/
def upsertDocs (st : QdrantState) (name : String) (batch : List StoredDocument) :
    QdrantState :=
  st.map fun kv =>
    if kv.1 = name then (kv.1, { kv.2 with docs := kv.2.docs ++ batch }) else kv

/-- Modelled from the spec: `QdrantVectorStore.add_documents` (langchain, a
black box at the §6 interface) computes for each document a dense vector
via the retriever's configured embeddings and a sparse vector via the
sparse adapter, then upserts the batch.  Ids are paired positionally with
the documents. -/
def buildStoredDocuments (embedDense : String → DenseVector)
    (embedSparse : String → SparseVector) :
    List TextChunk → Nat → List StoredDocument
  | [], _ => []
  | tc :: rest, firstUuid =>
    { id := firstUuid,
      text := tc.text,
      metadata := tc.metadata,
      dense := embedDense tc.text,
      sparse := embedSparse tc.text }
      :: buildStoredDocuments embedDense embedSparse rest (firstUuid + 1)

/-- Result of `insert_text_chunks`: the store state afterwards, the state
of the UUID supply, the log lines emitted, and the batched upsert calls
issued to the store (each list element is one `add_documents` call). -/
structure InsertResult where
  qdrant : QdrantState
  nextUuid : Nat
  logs : List LogEvent
  upsertCalls : List (String × List StoredDocument)
deriving Repr

/-- `Retriever.insert_text_chunks`: if the collection does not exist, log a
warning and return without touching anything; otherwise build one
`Document` per chunk, draw one fresh UUID per document (`uuid4` modelled as
a fresh-counter supply), and issue a single batched `add_documents` call
which embeds (dense via the configured, possibly cache-backed, embeddings;
sparse via the sparse adapter) and upserts. -/
def insertTextChunks (embedDense : String → DenseVector)
    (embedSparse : String → SparseVector) (st : QdrantState) (nextUuid : Nat)
    (name : String) (chunks : List TextChunk) : InsertResult :=
  if collectionExists st name then
    let stored := buildStoredDocuments embedDense embedSparse chunks nextUuid
    { qdrant := upsertDocs st name stored,
      nextUuid := nextUuid + chunks.length,
      logs := [],
      upsertCalls := [(name, stored)] }
  else
    { qdrant := st,
      nextUuid := nextUuid,
      logs := [LogEvent.warnNotExists name],
      upsertCalls := [] }

/-- `RetrieverItem` pydantic model: text, metadata, optional score. -/
structure RetrieverItem where
  text : String
  metadata : Metadata
  score : Option Rat := none
deriving DecidableEq, Repr

/-- The two retrieval modes of the vector-store handles. -/
inductive SearchMode
  | dense
  | hybrid
deriving DecidableEq, Repr

/-- A network call issued to the vector database during a query. -/
inductive NetworkCall
  | similaritySearch (mode : SearchMode) (name : String) (query : String) (k : Int)
  | mmrSearch (mode : SearchMode) (name : String) (query : String) (k : Int)
deriving DecidableEq, Repr

/-- The failure the vector database reports for a query against an unknown
collection. -/
inductive StoreError
  | collectionNotFound (name : String)
deriving DecidableEq, Repr

/-- A ranking oracle abstracting the similarity computation of the vector
database: given the collection's documents, the query text and the limit
`k`, it returns the ranked scored documents. -/
abbrev RankOracle := List StoredDocument → String → Int → List (StoredDocument × Rat)

/-- Modelled from the spec: the vector database's similarity query (§6
black box); a query against an unknown collection name raises (§9: the
source treats searching an unknown collection as an explicit exception),
otherwise the ranked scored documents are returned. -/
def storeSimilaritySearch (oracle : RankOracle) (st : QdrantState)
    (name query : String) (k : Int) :
    Except StoreError (List (StoredDocument × Rat)) :=
  match lookupAssoc name st with
  | none => Except.error (StoreError.collectionNotFound name)
  | some col => Except.ok (oracle col.docs query k)

/-- `Retriever._parse_results`: wrap every scored document into a
`RetrieverItem` carrying its score. -/
def parseResults (results : List (StoredDocument × Rat)) : List RetrieverItem :=
  results.map fun p =>
    { text := p.1.text, metadata := p.1.metadata, score := some p.2 }

/-- Outcome of a search call: the network calls it issued and its result
(either the parsed items or the propagated store failure). -/
structure SearchOutcome where
  networkCalls : List NetworkCall
  result : Except StoreError (List RetrieverItem)
deriving Repr

/-- `Retriever.dense_search`: no validation of `k` and no existence check
happens in the method; it obtains the dense handle and forwards query, `k`
and filter to `asimilarity_search_with_score` (one network call), then
parses the scored results. -/
def denseSearch (oracle : RankOracle) (st : QdrantState)
    (name query : String) (k : Int) : SearchOutcome :=
  { networkCalls := [NetworkCall.similaritySearch SearchMode.dense name query k],
    result := (storeSimilaritySearch oracle st name query k).map parseResults }

/-- `Retriever.hybrid_search`: identical control flow to `dense_search`
over the hybrid handle (the dense/sparse fusion happens inside the store,
behind the oracle). -/
def hybridSearch (oracle : RankOracle) (st : QdrantState)
    (name query : String) (k : Int) : SearchOutcome :=
  { networkCalls := [NetworkCall.similaritySearch SearchMode.hybrid name query k],
    result := (storeSimilaritySearch oracle st name query k).map parseResults }

/-- An MMR oracle abstracting the diversified candidate selection the
langchain retriever performs inside the store call: given the collection's
documents, the query and `k`, it returns the selected documents (no
scores cross this interface). -/
abbrev MmrOracle := List StoredDocument → String → Int → List StoredDocument

/-- Failures of `Retriever.retrieve`: an unknown search type raises a key
lookup error in `search_type_map` before any network call; store failures
propagate from the network call. -/
inductive RetrieveError
  | unknownSearchType (searchType : String)
  | store (e : StoreError)
deriving DecidableEq, Repr

/-- Outcome of `retrieve`: issued network calls plus result. -/
structure RetrieveOutcome where
  networkCalls : List NetworkCall
  result : Except RetrieveError (List RetrieverItem)
deriving Repr

/-- The keys of `Retriever.search_type_map`, mapped to the corresponding
vector-store mode. -/
def searchTypeMap : List (String × SearchMode) :=
  [("dense", SearchMode.dense), ("hybrid", SearchMode.hybrid)]

/-- `Retriever.retrieve`: `_get_retriever` looks the search type up in
`search_type_map` (an unknown key fails here, synchronously, with no
network call) and wraps the store handle as an MMR retriever; `ainvoke`
then issues the network query, and each returned document is wrapped into
a `RetrieverItem` with no score. -/
def retrieve (oracle : MmrOracle) (st : QdrantState)
    (name query : String) (k : Int) (searchType : String) : RetrieveOutcome :=
  match lookupAssoc searchType searchTypeMap with
  | none =>
    { networkCalls := [],
      result := Except.error (RetrieveError.unknownSearchType searchType) }
  | some mode =>
    match lookupAssoc name st with
    | none =>
      { networkCalls := [NetworkCall.mmrSearch mode name query k],
        result := Except.error
          (RetrieveError.store (StoreError.collectionNotFound name)) }
    | some col =>
      { networkCalls := [NetworkCall.mmrSearch mode name query k],
        result := Except.ok ((oracle col.docs query k).map fun d =>
          { text := d.text, metadata := d.metadata, score := none }) }

/-- State of a `functools.lru_cache` memoizing handle construction: the
cached entries (most recently used first), and the id the next constructed
handle will carry.  Two handles are the same object exactly when they carry
the same construction id. -/
structure LruCache (K : Type) where
  entries : List (K × Nat)
  nextId : Nat
deriving Repr

/-- One cached call through `functools.lru_cache(maxsize=cap)`: on a hit
the stored handle is returned and its entry moves to the front (most
recently used); on a miss a new handle is constructed, inserted at the
front, and the least recently used entry is evicted if the cache would
exceed its capacity. -/
def lruGet {K : Type} [DecidableEq K] (cap : Nat) (c : LruCache K) (k : K) :
    Nat × LruCache K :=
  match lookupAssoc k c.entries with
  | some v =>
    (v, { c with entries := (k, v) :: c.entries.filter fun e => decide (e.1 ≠ k) })
  | none =>
    (c.nextId,
     { entries := ((k, c.nextId) :: c.entries).take cap,
       nextId := c.nextId + 1 })

/-- The default `maxsize` of `functools.lru_cache()`, used by the bare
`@lru_cache()` decorators in the source. -/
def LRU_DEFAULT_MAXSIZE : Nat := 128

/-- `Retriever._get_dense_vector_store`: construction of the dense
`QdrantVectorStore` handle for a collection name, memoized by the bare
`@lru_cache()` decorator (default maxsize 128). -/
def getDenseVectorStore (c : LruCache String) (name : String) :
    Nat × LruCache String :=
  lruGet LRU_DEFAULT_MAXSIZE c name

/-- `Retriever._get_hybrid_vector_store`: construction of the hybrid
`QdrantVectorStore` handle for a collection name, memoized by the bare
`@lru_cache()` decorator (default maxsize 128); the hybrid getter has its
own cache, separate from the dense one. -/
def getHybridVectorStore (c : LruCache String) (name : String) :
    Nat × LruCache String :=
  lruGet LRU_DEFAULT_MAXSIZE c name

/-! ## Helper lemmas -/

theorem lookupAssoc_append_of_none {α β : Type} [DecidableEq α] (k : α)
    (l1 l2 : List (α × β)) (h : lookupAssoc k l1 = none) :
    lookupAssoc k (l1 ++ l2) = lookupAssoc k l2 := by
  induction l1 with
  | nil => rfl
  | cons hd tl ih =>
    obtain ⟨a, b⟩ := hd
    by_cases hak : a = k
    · simp [lookupAssoc, hak] at h
    · simp only [List.cons_append, lookupAssoc, if_neg hak] at h ⊢
      exact ih h

theorem lookupAssoc_of_not_exists (st : QdrantState) (name : String)
    (h : collectionExists st name = false) : lookupAssoc name st = none := by
  unfold collectionExists at h
  cases hl : lookupAssoc name st with
  | none => rfl
  | some c => rw [hl] at h; simp at h

/-! ## Claims -/

/-- C1: for every collection name, if the collection already exists then
`create_collection` is a no-op that reports a warning condition rather than
raising an error and does not alter the existing collection (in particular
its document count is unchanged); calling create twice with the same name
and schema never raises (`createCollection` is total: a second call with
the same name lands in the warning branch and leaves the state of the
first call untouched). -/
theorem create_collection_idempotent (dims : Nat) (st : QdrantState) (name : String) :
    (collectionExists st name = true →
       createCollection dims st name = (st, [LogEvent.warnAlreadyExists name])) ∧
    createCollection dims (createCollection dims st name).1 name =
      ((createCollection dims st name).1, [LogEvent.warnAlreadyExists name]) ∧
    docCountOf (createCollection dims (createCollection dims st name).1 name).1 name =
      docCountOf (createCollection dims st name).1 name := by
  have hmain : ∀ s : QdrantState, collectionExists s name = true →
      createCollection dims s name = (s, [LogEvent.warnAlreadyExists name]) := by
    intro s hs
    unfold createCollection
    rw [if_pos hs]
  have hafter : collectionExists (createCollection dims st name).1 name = true := by
    unfold createCollection
    by_cases h : collectionExists st name = true
    · rw [if_pos h]; exact h
    · rw [if_neg h]
      simp only
      unfold collectionExists
      rw [lookupAssoc_append_of_none name st _
        (lookupAssoc_of_not_exists st name (by simpa using h))]
      simp [lookupAssoc]
  refine ⟨hmain st, hmain _ hafter, ?_⟩
  rw [hmain _ hafter]

/-- Witness for C1 at a concrete one-collection state. -/
theorem create_collection_idempotent_witness :
    collectionExists
      [("c", ({ schema := createCollectionSchema 3, docs := [] } : Collection))] "c" = true ∧
    createCollection 3
      [("c", { schema := createCollectionSchema 3, docs := [] })] "c" =
      ([("c", { schema := createCollectionSchema 3, docs := [] })],
       [LogEvent.warnAlreadyExists "c"]) :=
  ⟨by decide,
   (create_collection_idempotent 3
     [("c", { schema := createCollectionSchema 3, docs := [] })] "c").1 (by decide)⟩

/-- C2: `insert_text_chunks` against a missing collection is a no-op that
logs a warning: the store state is untouched (so the collection is not
implicitly created), no batch is sent, the UUID supply is not consumed,
and nothing is raised (the function is total). -/
theorem insert_missing_collection_noop (embedDense : String → DenseVector)
    (embedSparse : String → SparseVector) (st : QdrantState) (nextUuid : Nat)
    (name : String) (chunks : List TextChunk)
    (h : collectionExists st name = false) :
    insertTextChunks embedDense embedSparse st nextUuid name chunks =
      { qdrant := st, nextUuid := nextUuid,
        logs := [LogEvent.warnNotExists name], upsertCalls := [] } ∧
    collectionExists
      (insertTextChunks embedDense embedSparse st nextUuid name chunks).qdrant
      name = false := by
  have heq : insertTextChunks embedDense embedSparse st nextUuid name chunks =
      { qdrant := st, nextUuid := nextUuid,
        logs := [LogEvent.warnNotExists name], upsertCalls := [] } := by
    unfold insertTextChunks
    rw [if_neg (by simp [h])]
  exact ⟨heq, by rw [heq]; exact h⟩

/-- Witness for C2 on the empty store. -/
theorem insert_missing_collection_noop_witness :
    insertTextChunks (fun _ => []) (fun _ => []) [] 0 "c" [{ text := "t", metadata := [] }] =
      { qdrant := [], nextUuid := 0,
        logs := [LogEvent.warnNotExists "c"], upsertCalls := [] } :=
  (insert_missing_collection_noop (fun _ => []) (fun _ => []) [] 0 "c"
    [{ text := "t", metadata := [] }] rfl).1

/-- C3 counterexample: creating a fresh collection configures the sparse
field's index with on_disk = false, i.e. the sparse index is held in
memory, refuting the claim that it is not held in memory but resident on
secondary storage. -/
theorem create_sparse_index_on_disk_cex :
    ¬ (∀ kv ∈ (createCollection 4 [] "c").1,
        ∀ sv ∈ kv.2.schema.sparseVectorsConfig, sv.2.index.onDisk = true) := by
  decide

/-- C3 amended: when `create_collection` creates a new collection it
provisions exactly two vector fields: a dense field whose size equals the
adapter's declared dimension with COSINE distance, and a sparse term-weight
field whose index is configured with on_disk = false (held in memory, not
resident on secondary storage). -/
theorem create_collection_provisions_two_fields (dims : Nat) (st : QdrantState)
    (name : String) (h : collectionExists st name = false) :
    lookupAssoc name (createCollection dims st name).1 =
      some { schema :=
               { vectorsConfig :=
                   [("dense", { size := dims, distance := Distance.cosine })],
                 sparseVectorsConfig :=
                   [("sparse", { index := { onDisk := false } })] },
             docs := [] } := by
  unfold createCollection
  rw [if_neg (by simp [h])]
  simp only
  rw [lookupAssoc_append_of_none name st _ (lookupAssoc_of_not_exists st name h)]
  simp [lookupAssoc, createCollectionSchema]

/-- Witness for C3's amended theorem on the empty store. -/
theorem create_collection_provisions_two_fields_witness :
    lookupAssoc "c" (createCollection 4 [] "c").1 =
      some { schema :=
               { vectorsConfig :=
                   [("dense", { size := 4, distance := Distance.cosine })],
                 sparseVectorsConfig :=
                   [("sparse", { index := { onDisk := false } })] },
             docs := [] } :=
  create_collection_provisions_two_fields 4 [] "c" rfl

theorem buildStoredDocuments_length (embedDense : String → DenseVector)
    (embedSparse : String → SparseVector) (chunks : List TextChunk) (u : Nat) :
    (buildStoredDocuments embedDense embedSparse chunks u).length = chunks.length := by
  induction chunks generalizing u with
  | nil => rfl
  | cons tc rest ih => simp [buildStoredDocuments, ih]

theorem buildStoredDocuments_id_ge (embedDense : String → DenseVector)
    (embedSparse : String → SparseVector) (chunks : List TextChunk) (u : Nat) :
    ∀ d ∈ buildStoredDocuments embedDense embedSparse chunks u, u ≤ d.id := by
  induction chunks generalizing u with
  | nil => intro d hd; simp [buildStoredDocuments] at hd
  | cons tc rest ih =>
    intro d hd
    simp only [buildStoredDocuments, List.mem_cons] at hd
    rcases hd with h | h
    · rw [h]
    · exact Nat.le_of_succ_le (ih (u + 1) d h)

theorem buildStoredDocuments_ids_nodup (embedDense : String → DenseVector)
    (embedSparse : String → SparseVector) (chunks : List TextChunk) (u : Nat) :
    ((buildStoredDocuments embedDense embedSparse chunks u).map fun d => d.id).Nodup := by
  induction chunks generalizing u with
  | nil => simp [buildStoredDocuments]
  | cons tc rest ih =>
    simp only [buildStoredDocuments, List.map_cons, List.nodup_cons]
    refine ⟨?_, ih (u + 1)⟩
    intro hmem
    obtain ⟨d, hd, hid⟩ := List.mem_map.mp hmem
    have := buildStoredDocuments_id_ge embedDense embedSparse rest (u + 1) d hd
    omega

theorem buildStoredDocuments_get? (embedDense : String → DenseVector)
    (embedSparse : String → SparseVector) (chunks : List TextChunk)
    (u i : Nat) (tc : TextChunk) (h : chunks.get? i = some tc) :
    (buildStoredDocuments embedDense embedSparse chunks u).get? i =
      some { id := u + i, text := tc.text, metadata := tc.metadata,
             dense := embedDense tc.text, sparse := embedSparse tc.text } := by
  induction chunks generalizing u i with
  | nil => simp at h
  | cons hd rest ih =>
    cases i with
    | zero =>
      simp only [List.get?] at h
      cases h
      simp [buildStoredDocuments, List.get?]
    | succ n =>
      simp only [List.get?] at h
      have hrec := ih (u + 1) n h
      simp only [buildStoredDocuments, List.get?]
      rw [hrec]
      have : u + 1 + n = u + (n + 1) := by omega
      rw [this]

/-- C6: inserting a non-empty list of chunks into an existing collection
issues exactly one batched upsert call on that collection; the batch has one
stored document per chunk, each carrying a fresh id drawn from the UUID
supply (all ids pairwise distinct and at least the supply's current value,
which the call advances), and the i-th document keeps the i-th chunk's text
and metadata and carries the dense vector computed by the configured
(possibly cache-backed) dense embeddings and the sparse vector computed by
the sparse adapter. -/
theorem insert_existing_collection_batched (embedDense : String → DenseVector)
    (embedSparse : String → SparseVector) (st : QdrantState) (nextUuid : Nat)
    (name : String) (chunks : List TextChunk)
    (hex : collectionExists st name = true) (_hne : chunks ≠ []) :
    ∃ batch,
      (insertTextChunks embedDense embedSparse st nextUuid name chunks).upsertCalls =
        [(name, batch)] ∧
      batch.length = chunks.length ∧
      (batch.map fun d => d.id).Nodup ∧
      (∀ d ∈ batch, nextUuid ≤ d.id) ∧
      (insertTextChunks embedDense embedSparse st nextUuid name chunks).nextUuid =
        nextUuid + chunks.length ∧
      (∀ i tc, chunks.get? i = some tc →
        batch.get? i =
          some { id := nextUuid + i, text := tc.text, metadata := tc.metadata,
                 dense := embedDense tc.text, sparse := embedSparse tc.text }) := by
  refine ⟨buildStoredDocuments embedDense embedSparse chunks nextUuid, ?_, ?_, ?_, ?_, ?_, ?_⟩
  · unfold insertTextChunks
    rw [if_pos hex]
  · exact buildStoredDocuments_length embedDense embedSparse chunks nextUuid
  · exact buildStoredDocuments_ids_nodup embedDense embedSparse chunks nextUuid
  · exact buildStoredDocuments_id_ge embedDense embedSparse chunks nextUuid
  · unfold insertTextChunks
    rw [if_pos hex]
  · intro i tc h
    exact buildStoredDocuments_get? embedDense embedSparse chunks nextUuid i tc h

/-- Witness for C6: two chunks inserted into an existing collection. -/
theorem insert_existing_collection_batched_witness :
    ∃ batch,
      (insertTextChunks (fun _ => [1]) (fun _ => [(0, 1)])
        [("c", { schema := createCollectionSchema 1, docs := [] })] 5 "c"
        [{ text := "a", metadata := [] }, { text := "b", metadata := [] }]).upsertCalls =
        [("c", batch)] ∧
      batch.length =
        ([{ text := "a", metadata := [] },
          { text := "b", metadata := [] }] : List TextChunk).length ∧
      (batch.map fun d => d.id).Nodup ∧
      (∀ d ∈ batch, 5 ≤ d.id) ∧
      (insertTextChunks (fun _ => [1]) (fun _ => [(0, 1)])
        [("c", { schema := createCollectionSchema 1, docs := [] })] 5 "c"
        [{ text := "a", metadata := [] }, { text := "b", metadata := [] }]).nextUuid =
        5 + ([{ text := "a", metadata := [] },
              { text := "b", metadata := [] }] : List TextChunk).length ∧
      (∀ i tc,
        ([{ text := "a", metadata := [] },
           { text := "b", metadata := [] }] : List TextChunk).get? i = some tc →
        batch.get? i =
          some { id := 5 + i, text := tc.text, metadata := tc.metadata,
                 dense := [1], sparse := [(0, 1)] }) :=
  insert_existing_collection_batched (fun _ => [1]) (fun _ => [(0, 1)])
    [("c", { schema := createCollectionSchema 1, docs := [] })] 5 "c"
    [{ text := "a", metadata := [] }, { text := "b", metadata := [] }]
    rfl (by simp)

/-- C7: construction fails with an assertion error whenever the dense
adapter does not expose both a model identifier and a dimension, and
succeeds for every adapter exposing both; on success the retriever's
recorded dimension and model are exactly the adapter's declared values
(never inferred later). -/
theorem retriever_init_requires_model_and_dimensions (e : DenseEmbeddings)
    (docCachePath queryCachePath : Option String) :
    ((retrieverInit e docCachePath queryCachePath).isOk = true ↔
       (e.model.isSome = true ∧ e.dimensions.isSome = true)) ∧
    (∀ cfg, retrieverInit e docCachePath queryCachePath = Except.ok cfg →
       some cfg.denseEmbedDimensions = e.dimensions ∧ some cfg.model = e.model) := by
  obtain ⟨m, d, f⟩ := e
  cases d with
  | none =>
    cases m <;> simp [retrieverInit, Except.isOk, Except.toBool]
  | some dv =>
    cases m with
    | none => simp [retrieverInit, Except.isOk, Except.toBool]
    | some mv =>
      refine ⟨by simp [retrieverInit, Except.isOk, Except.toBool], ?_⟩
      intro cfg hcfg
      simp only [retrieverInit] at hcfg
      cases hcfg
      exact ⟨rfl, rfl⟩

/-- Witness for C7 at a concrete adapter exposing model and dimension. -/
theorem retriever_init_requires_model_and_dimensions_witness :
    some (3 : Nat) = (DenseEmbeddings.mk (some "m") (some 3) fun _ => []).dimensions ∧
    some "m" = (DenseEmbeddings.mk (some "m") (some 3) fun _ => []).model :=
  (retriever_init_requires_model_and_dimensions
      (DenseEmbeddings.mk (some "m") (some 3) fun _ => []) none none).2
    { denseEmbedDimensions := 3, model := "m",
      denseEmbeddings :=
        EmbeddingsKind.raw (DenseEmbeddings.mk (some "m") (some 3) fun _ => []) }
    rfl

/-- C10: when the document embedding cache path is unset,
`_get_dense_embeddings` returns the underlying dense adapter unchanged (no
caching at all), whatever the query cache path is — the query cache path is
ignored, so a query-only cache can never be enabled without a document
cache; a constructed retriever then holds the raw adapter. -/
theorem doc_cache_none_disables_caching (e : DenseEmbeddings)
    (queryCachePath otherQueryCachePath : Option String) :
    getDenseEmbeddings e none queryCachePath = EmbeddingsKind.raw e ∧
    getDenseEmbeddings e none queryCachePath =
      getDenseEmbeddings e none otherQueryCachePath ∧
    (∀ cfg, retrieverInit e none queryCachePath = Except.ok cfg →
       cfg.denseEmbeddings = EmbeddingsKind.raw e) := by
  refine ⟨rfl, rfl, ?_⟩
  intro cfg hcfg
  obtain ⟨m, d, f⟩ := e
  cases d with
  | none => simp [retrieverInit] at hcfg
  | some dv =>
    cases m with
    | none => simp [retrieverInit] at hcfg
    | some mv =>
      simp only [retrieverInit] at hcfg
      cases hcfg
      rfl

/-- Witness for C10 at a concrete adapter and a set query cache path. -/
theorem doc_cache_none_disables_caching_witness :
    ({ denseEmbedDimensions := 3, model := "m",
       denseEmbeddings :=
         EmbeddingsKind.raw (DenseEmbeddings.mk (some "m") (some 3) fun _ => []) } :
      RetrieverCfg).denseEmbeddings =
      EmbeddingsKind.raw (DenseEmbeddings.mk (some "m") (some 3) fun _ => []) :=
  (doc_cache_none_disables_caching
      (DenseEmbeddings.mk (some "m") (some 3) fun _ => []) (some "q") none).2.2
    { denseEmbedDimensions := 3, model := "m",
      denseEmbeddings :=
        EmbeddingsKind.raw (DenseEmbeddings.mk (some "m") (some 3) fun _ => []) }
    rfl

/-- C4 counterexample: a dense search with k = 0 is not rejected — the call
still issues the similarity network query (carrying k = 0) and completes
with an ok result, so no synchronous validation of k happens before the
network call. -/
theorem invalid_k_not_rejected_cex :
    (denseSearch (fun _ _ _ => [])
        [("c", { schema := createCollectionSchema 1, docs := [] })]
        "c" "q" 0).networkCalls =
      [NetworkCall.similaritySearch SearchMode.dense "c" "q" 0] ∧
    (denseSearch (fun _ _ _ => [])
        [("c", { schema := createCollectionSchema 1, docs := [] })]
        "c" "q" 0).result = Except.ok [] := by
  exact ⟨rfl, rfl⟩

/-- C4 amended: the search methods perform no validation of k — for every k
(including k ≤ 0) dense_search and hybrid_search issue exactly one network
query that forwards k to the vector store; only retrieve with a search type
absent from search_type_map is rejected synchronously (a key lookup
failure) with no network call issued. -/
theorem unknown_mode_rejected_k_forwarded (rankOracle : RankOracle)
    (mmrOracle : MmrOracle) (st : QdrantState) (name query : String) (k : Int)
    (searchType : String)
    (h1 : searchType ≠ "dense") (h2 : searchType ≠ "hybrid") :
    retrieve mmrOracle st name query k searchType =
      { networkCalls := [],
        result := Except.error (RetrieveError.unknownSearchType searchType) } ∧
    (denseSearch rankOracle st name query k).networkCalls =
      [NetworkCall.similaritySearch SearchMode.dense name query k] ∧
    (hybridSearch rankOracle st name query k).networkCalls =
      [NetworkCall.similaritySearch SearchMode.hybrid name query k] := by
  refine ⟨?_, rfl, rfl⟩
  unfold retrieve
  have hlk : lookupAssoc searchType searchTypeMap = none := by
    simp only [searchTypeMap, lookupAssoc]
    rw [if_neg fun h => h1 h.symm, if_neg fun h => h2 h.symm]
  rw [hlk]

/-- Witness for C4's amended theorem with the unknown search type mmr and
k = 0. -/
theorem unknown_mode_rejected_k_forwarded_witness :
    retrieve (fun _ _ _ => []) [] "c" "q" 0 "mmr" =
      { networkCalls := [],
        result := Except.error (RetrieveError.unknownSearchType "mmr") } :=
  (unknown_mode_rejected_k_forwarded (fun _ _ _ => []) (fun _ _ _ => [])
    [] "c" "q" 0 "mmr" (by decide) (by decide)).1

/-- C5 counterexample: a dense search against a missing collection
propagates the store's collection-not-found failure instead of returning an
empty result list. -/
theorem search_missing_collection_raises_cex :
    (denseSearch (fun _ _ _ => []) [] "missing" "q" 5).result =
      Except.error (StoreError.collectionNotFound "missing") ∧
    (denseSearch (fun _ _ _ => []) [] "missing" "q" 5).result ≠
      Except.ok [] := by
  refine ⟨rfl, ?_⟩
  intro h
  rw [show (denseSearch (fun _ _ _ => []) [] "missing" "q" 5).result =
      Except.error (StoreError.collectionNotFound "missing") from rfl] at h
  exact Except.noConfusion h

/-- C5 amended: dense_search and hybrid_search perform no existence check of
their own; a query against a collection name the store does not hold
propagates the store's collection-not-found failure (raises) rather than
reporting the condition and returning an empty result list. -/
theorem search_missing_collection_propagates (rankOracle : RankOracle)
    (st : QdrantState) (name query : String) (k : Int)
    (h : collectionExists st name = false) :
    (denseSearch rankOracle st name query k).result =
      Except.error (StoreError.collectionNotFound name) ∧
    (hybridSearch rankOracle st name query k).result =
      Except.error (StoreError.collectionNotFound name) := by
  have hlk := lookupAssoc_of_not_exists st name h
  constructor <;>
    simp [denseSearch, hybridSearch, storeSimilaritySearch, hlk, Except.map]

/-- Witness for C5's amended theorem on the empty store. -/
theorem search_missing_collection_propagates_witness :
    (denseSearch (fun _ _ _ => []) [] "m" "q" 5).result =
      Except.error (StoreError.collectionNotFound "m") ∧
    (hybridSearch (fun _ _ _ => []) [] "m" "q" 5).result =
      Except.error (StoreError.collectionNotFound "m") :=
  search_missing_collection_propagates (fun _ _ _ => []) [] "m" "q" 5 rfl

/-- C8: every item a successful dense_search or hybrid_search returns
carries a numeric score (parse_results always fills it in from the scored
store results), and every item a successful MMR-diversified retrieve
returns carries no score. -/
theorem search_scores_presence (rankOracle : RankOracle) (mmrOracle : MmrOracle)
    (st : QdrantState) (name query : String) (k : Int) (searchType : String) :
    (∀ items, (denseSearch rankOracle st name query k).result = Except.ok items →
       ∀ it ∈ items, it.score.isSome = true) ∧
    (∀ items, (hybridSearch rankOracle st name query k).result = Except.ok items →
       ∀ it ∈ items, it.score.isSome = true) ∧
    (∀ items,
       (retrieve mmrOracle st name query k searchType).result = Except.ok items →
       ∀ it ∈ items, it.score = none) := by
  have hparse : ∀ rs, ∀ it ∈ parseResults rs, it.score.isSome = true := by
    intro rs it hit
    obtain ⟨p, _, hp⟩ := List.mem_map.mp hit
    rw [← hp]
    rfl
  refine ⟨?_, ?_, ?_⟩
  · intro items hok
    simp only [denseSearch, storeSimilaritySearch] at hok
    cases hlk : lookupAssoc name st with
    | none => rw [hlk] at hok; exact Except.noConfusion hok
    | some col =>
      rw [hlk] at hok
      simp only [Except.map] at hok
      cases hok
      exact hparse _
  · intro items hok
    simp only [hybridSearch, storeSimilaritySearch] at hok
    cases hlk : lookupAssoc name st with
    | none => rw [hlk] at hok; exact Except.noConfusion hok
    | some col =>
      rw [hlk] at hok
      simp only [Except.map] at hok
      cases hok
      exact hparse _
  · intro items hok
    simp only [retrieve] at hok
    cases hty : lookupAssoc searchType searchTypeMap with
    | none => rw [hty] at hok; exact Except.noConfusion hok
    | some mode =>
      rw [hty] at hok
      cases hlk : lookupAssoc name st with
      | none => rw [hlk] at hok; exact Except.noConfusion hok
      | some col =>
        rw [hlk] at hok
        simp only at hok
        cases hok
        intro it hit
        obtain ⟨d, _, hd⟩ := List.mem_map.mp hit
        rw [← hd]

/-- Witness for C8 on a one-document collection. -/
theorem search_scores_presence_witness :
    ({ text := "t", metadata := [], score := some 1 } : RetrieverItem).score.isSome =
      true :=
  (search_scores_presence
      (fun _ _ _ =>
        [({ id := 0, text := "t", metadata := [], dense := [], sparse := [] }, 1)])
      (fun _ _ _ => [])
      [("c", { schema := createCollectionSchema 1,
               docs := [{ id := 0, text := "t", metadata := [],
                          dense := [], sparse := [] }] })]
      "c" "q" 1 "dense").1
    [{ text := "t", metadata := [], score := some 1 }] rfl
    { text := "t", metadata := [], score := some 1 } (List.mem_singleton.mpr rfl)

set_option maxRecDepth 20000 in
/-- C9 counterexample: the memoization of `_get_dense_vector_store` is the
bare `functools.lru_cache()`, whose capacity is 128 — after 129 distinct
collection names are looked up starting from a fresh cache, the first name
has been evicted and looking it up again constructs a new handle (a
different construction id), so the handle is not constructed at most once
per retriever instance. -/
theorem handle_cache_eviction_cex :
    (getDenseVectorStore
        (((List.range 129).map fun i => "c" ++ toString i).foldl
          (fun c k => (getDenseVectorStore c k).2) { entries := [], nextId := 0 })
        "c0").1 ≠
      (getDenseVectorStore { entries := [], nextId := 0 } "c0").1 := by
  decide

/-- C9 amended: the vector-store handle for a (collection name, mode) pair
is memoized per getter in an LRU cache of capacity 128 (the default of the
bare lru_cache decorator): looking up a name still held in the cache
returns the stored handle and constructs nothing new, and an immediately
repeated lookup of any name returns the identical handle; only once more
than 128 distinct names have been accessed on the same getter can eviction
force a later lookup to construct a fresh handle. -/
theorem handle_cache_memoized (c : LruCache String) (name : String) :
    (∀ v, lookupAssoc name c.entries = some v →
       (getDenseVectorStore c name).1 = v ∧
       (getDenseVectorStore c name).2.nextId = c.nextId ∧
       (getHybridVectorStore c name).1 = v ∧
       (getHybridVectorStore c name).2.nextId = c.nextId) ∧
    (getDenseVectorStore (getDenseVectorStore c name).2 name).1 =
      (getDenseVectorStore c name).1 ∧
    (getHybridVectorStore (getHybridVectorStore c name).2 name).1 =
      (getHybridVectorStore c name).1 := by
  have hfront : ∀ (v : Nat) (rest : List (String × Nat)),
      lookupAssoc name ((name, v) :: rest) = some v := by
    intro v rest
    simp [lookupAssoc]
  have htake : ∀ (p : String × Nat) (l : List (String × Nat)),
      (p :: l).take LRU_DEFAULT_MAXSIZE = p :: l.take 127 := fun _ _ => rfl
  have hrepeat : ∀ st : LruCache String,
      (lruGet LRU_DEFAULT_MAXSIZE (lruGet LRU_DEFAULT_MAXSIZE st name).2 name).1 =
        (lruGet LRU_DEFAULT_MAXSIZE st name).1 := by
    intro st
    cases hlk : lookupAssoc name st.entries with
    | some v =>
      have h1 : lruGet LRU_DEFAULT_MAXSIZE st name =
          (v, { st with entries :=
                  (name, v) :: st.entries.filter fun e => decide (e.1 ≠ name) }) := by
        simp only [lruGet, hlk]
      rw [h1]
      simp only [lruGet, hfront v]
    | none =>
      have h1 : lruGet LRU_DEFAULT_MAXSIZE st name =
          (st.nextId,
           { entries := ((name, st.nextId) :: st.entries).take LRU_DEFAULT_MAXSIZE,
             nextId := st.nextId + 1 }) := by
        simp only [lruGet, hlk]
      rw [h1]
      have h2 : lookupAssoc name
          (((name, st.nextId) :: st.entries).take LRU_DEFAULT_MAXSIZE) =
          some st.nextId := by
        rw [htake]
        exact hfront _ _
      simp only [lruGet, h2]
  refine ⟨?_, hrepeat c, hrepeat c⟩
  intro v hv
  simp [getDenseVectorStore, getHybridVectorStore, lruGet, hv]

/-- Witness for C9's amended theorem on a one-entry cache. -/
theorem handle_cache_memoized_witness :
    (getDenseVectorStore { entries := [("c", 7)], nextId := 8 } "c").1 = 7 ∧
    (getDenseVectorStore { entries := [("c", 7)], nextId := 8 } "c").2.nextId = 8 ∧
    (getHybridVectorStore { entries := [("c", 7)], nextId := 8 } "c").1 = 7 ∧
    (getHybridVectorStore { entries := [("c", 7)], nextId := 8 } "c").2.nextId = 8 :=
  (handle_cache_memoized { entries := [("c", 7)], nextId := 8 } "c").1 7 (by decide)

end Cparla
